import Mathlib

/-
Verification of the deluge-rpc client protocol layer (`src/rpc.rs`,
`src/methods.rs`): the inbound message dispatcher and the two-stage
error-normalization pipeline, shallowly embedded in Lean.

Wire values (`serde_yaml::Value`) are modelled by the inductive `Value`
(numbers are modelled as integers: all numeric wire values relevant to the
dispatcher are integers).  Rust computations that can panic (slice indexing
out of bounds, `Option::unwrap` on `None`, `assert!`) are modelled in the
`Except Failure` monad with a distinguished `Failure.panicked` outcome,
kept separate from recoverable decode errors (`Failure.decodeError`,
the `serde_yaml::Error` values propagated with `?`).
-/

namespace DelugeRpc

/-- Model of `serde_yaml::Value`: the loosely-typed wire value. -/
inductive Value where
  | null : Value
  | bool (b : Bool) : Value
  | int (n : Int) : Value
  | str (s : String) : Value
  | seq (xs : List Value) : Value
  | map (entries : List (Value × Value)) : Value

/-- How a modelled Rust computation can fail: a recoverable serde decode
error (returned with `?`), or a process-aborting panic (out-of-bounds
indexing, `unwrap` on `None`, a failed `assert!`). -/
inductive Failure where
  | decodeError : Failure
  | panicked : Failure
deriving DecidableEq

/-- Result of a modelled Rust computation. -/
abbrev Res (α : Type) : Type := Except Failure α

/-- `List = Vec<Value>` from the crate's `types` module. -/
abbrev List' : Type := List Value

/-- Modelled from the spec: `Dict`, the crate's `types` module being outside
`src/`; the spec describes keyword arguments as a "mapping of name to
loosely-typed value", so a dictionary is a list of (text, value) entries. -/
abbrev Dict : Type := List (String × Value)

/-- Rust slice indexing `data[i]` on `&[Value]`: panics when out of bounds. -/
def index (data : List Value) (i : Nat) : Res Value :=
  match data[i]? with
  | some v => .ok v
  | none => .error .panicked

/-- Rust slicing `data[2..=5]` on `&[Value]`: panics when `data.len() < 6`,
otherwise yields elements 2,3,4,5. -/
def slice25 (data : List Value) : Res (List Value) :=
  if 6 ≤ data.length then .ok ((data.drop 2).take 4) else .error .panicked

/-- `from_value::<i64>`: succeeds exactly on integer values in `i64` range. -/
def decodeI64 (v : Value) : Res Int :=
  match v with
  | .int n => if -(2 ^ 63) ≤ n ∧ n < 2 ^ 63 then .ok n else .error .decodeError
  | _ => .error .decodeError

/-- `from_value::<String>`: succeeds exactly on text values. -/
def decodeString (v : Value) : Res String :=
  match v with
  | .str s => .ok s
  | _ => .error .decodeError

/-- `from_value::<List>` (`Vec<Value>`): succeeds exactly on sequences,
with the elements preserved verbatim and in order. -/
def decodeList (v : Value) : Res List' :=
  match v with
  | .seq xs => .ok xs
  | _ => .error .decodeError

/-- Decode the entries of a wire mapping into `Dict` entries:
every key must be text. -/
def decodeDictEntries (entries : List (Value × Value)) : Res Dict :=
  match entries with
  | [] => .ok []
  | (.str k, v) :: rest =>
    match decodeDictEntries rest with
    | .ok tail => .ok ((k, v) :: tail)
    | .error f => .error f
  | _ => .error .decodeError

/-- `from_value::<Dict>`: succeeds exactly on mappings whose keys are text. -/
def decodeDict (v : Value) : Res Dict :=
  match v with
  | .map entries => decodeDictEntries entries
  | _ => .error .decodeError

/-- `struct GenericError`: the daemon's exception in its native, untyped
form (`src/rpc.rs` lines 12-19). -/
structure GenericError where
  exception : String
  args : List'
  kwargs : Dict
  traceback : String

/-- `serde(from = "(String, List, Dict, String)")` deserialization of
`GenericError`: a sequence of exactly four values, decoded in order as
(text, sequence, mapping, text), then passed to the field constructor
(`src/rpc.rs` lines 12-13 and 27-31). -/
def decodeGenericError (v : Value) : Res GenericError :=
  match v with
  | .seq [e, a, k, t] =>
    match decodeString e with
    | .error f => .error f
    | .ok exception =>
      match decodeList a with
      | .error f => .error f
      | .ok args =>
        match decodeDict k with
        | .error f => .error f
        | .ok kwargs =>
          match decodeString t with
          | .error f => .error f
          | .ok traceback => .ok ⟨exception, args, kwargs, traceback⟩
  | _ => .error .decodeError

/-- `enum MessageType { Response = 1, Error = 2, Event = 3 }`
(`src/rpc.rs` line 117). -/
inductive MessageType where
  | response : MessageType
  | error : MessageType
  | event : MessageType
deriving DecidableEq

/-- `from_value::<MessageType>` via `value_enum(u8)`: succeeds exactly on the
integer tags 1, 2 and 3. -/
def decodeMessageType (v : Value) : Res MessageType :=
  match v with
  | .int 1 => .ok .response
  | .int 2 => .ok .error
  | .int 3 => .ok .event
  | _ => .error .decodeError

/-- `enum Inbound` (`src/rpc.rs` lines 110-114): a decoded wire message. -/
inductive Inbound where
  | response (request_id : Int) (result : Except GenericError List') : Inbound
  | event (event_name : String) (data : List') : Inbound

/-- `impl TryFrom<&[Value]> for Inbound` (`src/rpc.rs` lines 119-141),
with the source's evaluation order preserved: `data[0]` is indexed and
decoded as the tag first; then, per tag, `data[1]` is indexed and decoded,
then the payload positions are indexed and decoded.  The success payload
uses `from_value(data[2].clone()).unwrap_or(vec![data[2].clone()])`:
a non-sequence payload is wrapped as a one-element list instead of failing. -/
def Inbound.tryFrom (data : List Value) : Res Inbound :=
  match index data 0 with
  | .error f => .error f
  | .ok tagv =>
    match decodeMessageType tagv with
    | .error f => .error f
    | .ok .response =>
      match index data 1 with
      | .error f => .error f
      | .ok v1 =>
        match decodeI64 v1 with
        | .error f => .error f
        | .ok rid =>
          match index data 2 with
          | .error f => .error f
          | .ok v2 =>
            match decodeList v2 with
            | .ok xs => .ok (.response rid (.ok xs))
            | .error _ => .ok (.response rid (.ok [v2]))
    | .ok .error =>
      match index data 1 with
      | .error f => .error f
      | .ok v1 =>
        match decodeI64 v1 with
        | .error f => .error f
        | .ok rid =>
          match slice25 data with
          | .error f => .error f
          | .ok body =>
            match decodeGenericError (.seq body) with
            | .error f => .error f
            | .ok ge => .ok (.response rid (.error ge))
    | .ok .event =>
      match index data 1 with
      | .error f => .error f
      | .ok v1 =>
        match decodeString v1 with
        | .error f => .error f
        | .ok name =>
          match index data 2 with
          | .error f => .error f
          | .ok v2 =>
            match decodeList v2 with
            | .error f => .error f
            | .ok d => .ok (.event name d)

/-- Hexadecimal character class `[0-9a-fA-F]` of the message patterns. -/
def isHexDigit (c : Char) : Bool :=
  c.isDigit || ('a' ≤ c && c ≤ 'f') || ('A' ≤ c && c ≤ 'F')

/-- `str::strip_prefix` on character lists: the remainder after the given
literal, when the text starts with it. -/
def dropPre (pre cs : List Char) : Option (List Char) :=
  if pre.isPrefixOf cs then some (cs.drop pre.length) else none

/-- The anchored regex `^<pre>[0-9a-fA-F]{40}\)\.$`: the whole text is the
literal `pre`, then exactly forty hexadecimal characters, then `).`. -/
def matchWrapped (pre cs : List Char) : Bool :=
  match dropPre pre cs with
  | some rest => rest.length == 42 && (rest.take 40).all isHexDigit && rest.drop 40 == [')', '.']
  | none => false

/-- A 40-character hexadecimal rendering of a 20-byte identifier. -/
def validHex (s : String) : Bool :=
  s.data.length == 40 && s.data.all isHexDigit

/-- Modelled from the spec: `InfoHash` and `InfoHash::from_hex` live in the
crate's `types` module, which is outside `src/`.  The spec describes a torrent
hash as a "fixed-length (20-byte) content identifier rendered as a
40-character hexadecimal string", so an `InfoHash` is such a rendering. -/
abbrev InfoHash : Type := { s : String // validHex s = true }

/-- Modelled from the spec: `InfoHash::from_hex` accepts exactly a
40-character hexadecimal string. -/
def InfoHash.fromHex (s : String) : Option InfoHash :=
  if h : validHex s = true then some ⟨s, h⟩ else none

/-- `enum AddTorrentError` (`src/rpc.rs` lines 38-47). -/
inductive AddTorrentError where
  | alreadyInSession (hash : InfoHash) : AddTorrentError
  | alreadyBeingAdded (hash : InfoHash) : AddTorrentError
  | unableToAddMagnet (link : String) : AddTorrentError
  | mustSpecifyValidTorrent : AddTorrentError
  | decodingFiledumpFailed (decode_ex : String) : AddTorrentError
  | unableToAddToSession (ex : String) : AddTorrentError
  | other (msg : String) : AddTorrentError

/-- Literal of the `AlreadyInSession` pattern (28 characters). -/
def alreadyInSessionPat : String := "Torrent already in session ("

/-- Literal of the `AlreadyBeingAdded` pattern (29 characters). -/
def alreadyBeingAddedPat : String := "Torrent already being added ("

/-- Literal of the `UnableToAddMagnet` pattern. -/
def unableToAddMagnetPat : String := "Unable to add magnet, invalid magnet info: "

/-- Exact text of the `MustSpecifyValidTorrent` pattern. -/
def mustSpecifyMsg : String := "You must specify a valid torrent_info, torrent state or magnet."

/-- Literal of the `DecodingFiledumpFailed` pattern. -/
def decodingFiledumpPat : String := "Unable to add torrent, decoding filedump failed: "

/-- Literal of the `UnableToAddToSession` pattern. -/
def unableToAddToSessionPat : String := "Unable to add torrent to session: "

/-- `impl From<&str> for AddTorrentError` (`src/rpc.rs` lines 63-82):
first-match-wins over the ordered pattern list; the two hash-carrying
patterns extract the hash from the byte ranges `msg[28..68]` and
`msg[29..69]` (pure ASCII under the anchored match, so byte index equals
character index) and `unwrap` the parse, modelled as a panic when the parse
fails; unmatched text falls through to `Other` with the full message. -/
def AddTorrentError.fromMsg (msg : String) : Res AddTorrentError :=
  let cs := msg.data
  if matchWrapped alreadyInSessionPat.data cs then
    match InfoHash.fromHex (String.mk ((cs.drop 28).take 40)) with
    | some h => .ok (.alreadyInSession h)
    | none => .error .panicked
  else if matchWrapped alreadyBeingAddedPat.data cs then
    match InfoHash.fromHex (String.mk ((cs.drop 29).take 40)) with
    | some h => .ok (.alreadyBeingAdded h)
    | none => .error .panicked
  else
    match dropPre unableToAddMagnetPat.data cs with
    | some rest => .ok (.unableToAddMagnet (String.mk rest))
    | none =>
      if msg = mustSpecifyMsg then .ok .mustSpecifyValidTorrent
      else
        match dropPre decodingFiledumpPat.data cs with
        | some rest => .ok (.decodingFiledumpFailed (String.mk rest))
        | none =>
          match dropPre unableToAddToSessionPat.data cs with
          | some rest => .ok (.unableToAddToSession (String.mk rest))
          | none => .ok (.other msg)

/-- `enum SpecializedError` (`src/rpc.rs` lines 84-88). -/
inductive SpecializedError where
  | addTorrent (e : AddTorrentError) : SpecializedError
  | generic (e : GenericError) : SpecializedError

/-- `impl From<GenericError> for SpecializedError` (`src/rpc.rs` lines
99-106): dispatch on the pair (exception name, argument-list shape); only
`("AddTorrentError", [Value::String(msg)])` is specialized further,
everything else passes the record through unchanged. -/
def SpecializedError.fromGeneric (err : GenericError) : Res SpecializedError :=
  match err.exception, err.args with
  | "AddTorrentError", [.str msg] =>
    match AddTorrentError.fromMsg msg with
    | .ok e => .ok (.addTorrent e)
    | .error f => .error f
  | _, _ => .ok (.generic err)

/-- Modelled from the spec: `EventKind` lives in the crate's `types` module,
outside `src/`; the spec describes event kinds as "event-name identifiers". -/
def EventKind : Type := String

/-- Outcome of a modelled client call: a value, a recoverable error, or an
aborted process (failed assertion). -/
inductive CallOutcome (α : Type) where
  | ok (a : α) : CallOutcome α
  | err (e : GenericError) : CallOutcome α
  | panicked : CallOutcome α

/-- `set_event_interest` (`src/methods.rs` lines 26-31).  The session state
and the generated wire call are abstracted as parameters: `receiverCount`
models `self.event_receiver_count()` and `wire` models the
`_set_event_interest` wire call on the collected key list.  The `assert!`
on entry aborts the process when no active event receiver exists; otherwise
the request is forwarded to the wire call and its result returned. -/
def set_event_interest (receiverCount : Nat) (events : List EventKind)
    (wire : List EventKind → Except GenericError Bool) : CallOutcome Bool :=
  if receiverCount > 0 then
    match wire events with
    | .ok b => .ok b
    | .error e => .err e
  else .panicked

/-- The positions (beyond the tag at 0) a tag requires: 1 and 2 for the
success-response and event tags, 1 through 5 for the error tag. -/
def requiredPositions : MessageType → List Nat
  | .response => [1, 2]
  | .error => [1, 2, 3, 4, 5]
  | .event => [1, 2]

theorem index_eq_ok (data : List Value) (i : Nat) (v : Value)
    (h : data[i]? = some v) : index data i = .ok v := by
  simp [index, h]

theorem decodeI64_int (n : Int) (hn : -(2 ^ 63) ≤ n ∧ n < 2 ^ 63) :
    decodeI64 (.int n) = .ok n := by
  show (if -(2 ^ 63) ≤ n ∧ n < 2 ^ 63 then (Except.ok n : Res Int)
      else Except.error Failure.decodeError) = Except.ok n
  rw [if_pos hn]

theorem slice25_eq (data : List Value) (v2 v3 v4 v5 : Value)
    (h2 : data[2]? = some v2) (h3 : data[3]? = some v3)
    (h4 : data[4]? = some v4) (h5 : data[5]? = some v5) :
    slice25 data = .ok [v2, v3, v4, v5] := by
  have hlen : 6 ≤ data.length := (List.getElem?_eq_some.mp h5).1
  have hbody : (data.drop 2).take 4 = [v2, v3, v4, v5] := by
    apply List.ext_getElem?
    intro i
    match i with
    | 0 => simpa [List.getElem?_take, List.getElem?_drop] using h2
    | 1 => simpa [List.getElem?_take, List.getElem?_drop] using h3
    | 2 => simpa [List.getElem?_take, List.getElem?_drop] using h4
    | 3 => simpa [List.getElem?_take, List.getElem?_drop] using h5
    | (n + 4) => simp [List.getElem?_take]
  simp [slice25, hlen, hbody]

/-- C3: for every raw message with tag 1 whose position 1 is an integer (in
`i64` range) and whose position 2 is a list-shaped payload, decoding yields
`Response{request_id, Ok(payload)}` with the payload list's elements
preserved verbatim and in their original order. -/
theorem tag1_list_payload_decodes_verbatim (data : List Value) (n : Int) (xs : List Value)
    (h0 : data[0]? = some (.int 1))
    (h1 : data[1]? = some (.int n))
    (hn : -(2 ^ 63) ≤ n ∧ n < 2 ^ 63)
    (h2 : data[2]? = some (.seq xs)) :
    Inbound.tryFrom data = .ok (.response n (.ok xs)) := by
  simp [Inbound.tryFrom, index, h0, h1, h2, decodeMessageType, decodeList,
    decodeI64_int n hn]

/-- Witness for C3 at a concrete two-element payload. -/
theorem tag1_list_payload_decodes_verbatim_witness :
    Inbound.tryFrom [Value.int 1, Value.int 7, Value.seq [Value.str "a", Value.bool true]]
      = .ok (.response 7 (.ok [Value.str "a", Value.bool true])) :=
  tag1_list_payload_decodes_verbatim _ 7 _ rfl rfl (by norm_num) rfl

/-- C4: for every raw message with tag 1 whose position 1 is an integer (in
`i64` range) and whose position 2 is not list-shaped, decoding does not fail
on the payload: it yields `Response{request_id, Ok([scalar])}`, wrapping the
single raw payload value as a one-element result sequence. -/
theorem tag1_scalar_payload_wrapped (data : List Value) (n : Int) (v2 : Value)
    (h0 : data[0]? = some (.int 1))
    (h1 : data[1]? = some (.int n))
    (hn : -(2 ^ 63) ≤ n ∧ n < 2 ^ 63)
    (h2 : data[2]? = some v2)
    (hs : ∀ xs, v2 ≠ .seq xs) :
    Inbound.tryFrom data = .ok (.response n (.ok [v2])) := by
  have hd : decodeList v2 = .error .decodeError := by
    cases v2 with
    | seq xs => exact absurd rfl (hs xs)
    | _ => rfl
  simp [Inbound.tryFrom, index, h0, h1, h2, decodeMessageType, hd, decodeI64_int n hn]

/-- Witness for C4 at a concrete scalar (boolean) payload. -/
theorem tag1_scalar_payload_wrapped_witness :
    Inbound.tryFrom [Value.int 1, Value.int 7, Value.bool true]
      = .ok (.response 7 (.ok [Value.bool true])) :=
  tag1_scalar_payload_wrapped _ 7 _ rfl rfl (by norm_num) rfl (fun xs h => nomatch h)

/-- C2: for every raw message with tag 2 whose positions 1 through 5 are
well-typed (integer in `i64` range, text, sequence, mapping with text keys,
text), decoding yields `Response` with `request_id` from position 1 and
result `Err(GenericError)` whose exception, args, kwargs and traceback
fields are taken from positions 2, 3, 4 and 5 respectively, unmodified. -/
theorem tag2_error_decodes_fields (data : List Value) (n : Int) (e t : String)
    (a : List Value) (m : List (Value × Value)) (kw : Dict)
    (h0 : data[0]? = some (.int 2))
    (h1 : data[1]? = some (.int n))
    (hn : -(2 ^ 63) ≤ n ∧ n < 2 ^ 63)
    (h2 : data[2]? = some (.str e))
    (h3 : data[3]? = some (.seq a))
    (h4 : data[4]? = some (.map m))
    (hm : decodeDictEntries m = .ok kw)
    (h5 : data[5]? = some (.str t)) :
    Inbound.tryFrom data = .ok (.response n (.error ⟨e, a, kw, t⟩)) := by
  simp [Inbound.tryFrom, index, h0, h1, decodeMessageType, decodeI64_int n hn,
    slice25_eq data _ _ _ _ h2 h3 h4 h5, decodeGenericError, decodeString, decodeList,
    decodeDict, hm]

/-- Witness for C2 at a concrete well-typed tag-2 message. -/
theorem tag2_error_decodes_fields_witness :
    Inbound.tryFrom [Value.int 2, Value.int 9, Value.str "SomeError",
        Value.seq [Value.str "m"], Value.map [(Value.str "k", Value.int 3)], Value.str "tb"]
      = .ok (.response 9 (.error ⟨"SomeError", [Value.str "m"], [("k", Value.int 3)], "tb"⟩)) :=
  tag2_error_decodes_fields _ 9 _ _ _ _ _ rfl rfl (by norm_num) rfl rfl rfl rfl rfl

/-- C1 counterexample: the message `[1]` has the recognized tag 1 but is
missing required positions 1 and 2; decoding it panics (out-of-bounds
indexing of `data[1]`) instead of returning a decode error. -/
theorem missing_position_panics :
    Inbound.tryFrom [Value.int 1] = .error .panicked
      ∧ Failure.panicked ≠ Failure.decodeError :=
  ⟨rfl, by decide⟩

/-- C1 as amended: a message whose element 0 is present but is not a valid
tag decodes to a decode error (no panic); but a message whose tag is
recognized and which is missing a position required by that tag never
decodes successfully — it fails with a decode error or a panic, the panic
arising from out-of-bounds indexing. -/
theorem bad_tag_or_missing_position_fails (data : List Value) (v : Value)
    (h0 : data[0]? = some v) :
    (decodeMessageType v = .error .decodeError →
      Inbound.tryFrom data = .error .decodeError)
  ∧ (∀ t, decodeMessageType v = .ok t →
      (∃ i ∈ requiredPositions t, data[i]? = none) →
      ∃ f, Inbound.tryFrom data = .error f) := by
  constructor
  · intro h
    simp [Inbound.tryFrom, index, h0, h]
  · rintro t ht ⟨i, hi, hnone⟩
    have hlen : data.length ≤ i := List.getElem?_eq_none_iff.mp hnone
    cases t with
    | response =>
      have hi2 : i = 1 ∨ i = 2 := by simpa [requiredPositions] using hi
      rcases hd1 : data[1]? with _ | v1
      · exact ⟨.panicked, by simp [Inbound.tryFrom, index, h0, ht, hd1]⟩
      · have hd2 : data[2]? = none := by
          rw [List.getElem?_eq_none_iff]
          have := (List.getElem?_eq_some.mp hd1).1
          omega
        rcases hdec : decodeI64 v1 with f | rid
        · exact ⟨f, by simp [Inbound.tryFrom, index, h0, ht, hd1, hdec]⟩
        · exact ⟨.panicked, by simp [Inbound.tryFrom, index, h0, ht, hd1, hdec, hd2]⟩
    | error =>
      have hi5 : i ≤ 5 := by
        have : i = 1 ∨ i = 2 ∨ i = 3 ∨ i = 4 ∨ i = 5 := by
          simpa [requiredPositions] using hi
        omega
      have hs : slice25 data = .error .panicked := by
        simp [slice25, show ¬ 6 ≤ data.length by omega]
      rcases hd1 : data[1]? with _ | v1
      · exact ⟨.panicked, by simp [Inbound.tryFrom, index, h0, ht, hd1]⟩
      · rcases hdec : decodeI64 v1 with f | rid
        · exact ⟨f, by simp [Inbound.tryFrom, index, h0, ht, hd1, hdec]⟩
        · exact ⟨.panicked, by simp [Inbound.tryFrom, index, h0, ht, hd1, hdec, hs]⟩
    | event =>
      have hi2 : i = 1 ∨ i = 2 := by simpa [requiredPositions] using hi
      rcases hd1 : data[1]? with _ | v1
      · exact ⟨.panicked, by simp [Inbound.tryFrom, index, h0, ht, hd1]⟩
      · have hd2 : data[2]? = none := by
          rw [List.getElem?_eq_none_iff]
          have := (List.getElem?_eq_some.mp hd1).1
          omega
        rcases hdec : decodeString v1 with f | name
        · exact ⟨f, by simp [Inbound.tryFrom, index, h0, ht, hd1, hdec]⟩
        · exact ⟨.panicked, by simp [Inbound.tryFrom, index, h0, ht, hd1, hdec, hd2]⟩

/-- Witness for the amended C1: the unrecognized tag 7 yields a decode
error, and the tag-1 message missing position 2 fails (with a panic). -/
theorem bad_tag_or_missing_position_fails_witness :
    Inbound.tryFrom [Value.int 7] = .error .decodeError
      ∧ ∃ f, Inbound.tryFrom [Value.int 1, Value.int 4] = .error f :=
  ⟨(bad_tag_or_missing_position_fails [Value.int 7] (Value.int 7) rfl).1 rfl,
   (bad_tag_or_missing_position_fails [Value.int 1, Value.int 4] (Value.int 1) rfl).2
     .response rfl ⟨2, by decide, rfl⟩⟩

theorem slice25_congr (d1 d2 : List Value)
    (h2 : d1[2]? = d2[2]?) (h3 : d1[3]? = d2[3]?)
    (h4 : d1[4]? = d2[4]?) (h5 : d1[5]? = d2[5]?) :
    slice25 d1 = slice25 d2 := by
  rcases hd : d1[5]? with _ | v5
  · have e1 : d1.length ≤ 5 := List.getElem?_eq_none_iff.mp hd
    have e2 : d2.length ≤ 5 := List.getElem?_eq_none_iff.mp (h5.symm.trans hd)
    simp [slice25, show ¬ 6 ≤ d1.length by omega, show ¬ 6 ≤ d2.length by omega]
  · have hlen : 5 < d1.length := (List.getElem?_eq_some.mp hd).1
    rcases hv2 : d1[2]? with _ | v2
    · exact absurd (List.getElem?_eq_none_iff.mp hv2) (by omega)
    rcases hv3 : d1[3]? with _ | v3
    · exact absurd (List.getElem?_eq_none_iff.mp hv3) (by omega)
    rcases hv4 : d1[4]? with _ | v4
    · exact absurd (List.getElem?_eq_none_iff.mp hv4) (by omega)
    rw [slice25_eq d1 v2 v3 v4 v5 hv2 hv3 hv4 hd,
      slice25_eq d2 v2 v3 v4 v5 (h2.symm.trans hv2) (h3.symm.trans hv3)
        (h4.symm.trans hv4) (h5.symm.trans hd)]

/-- The positions a raw message's decoding may depend on, given its element
at position 0: position 0 itself, plus the positions its tag requires when
the tag is recognized. -/
def relevantPositions (o : Option Value) : List Nat :=
  match o with
  | some v =>
    match decodeMessageType v with
    | .ok t => 0 :: requiredPositions t
    | .error _ => [0]
  | none => [0]

theorem zero_mem_relevantPositions (o : Option Value) : 0 ∈ relevantPositions o := by
  unfold relevantPositions
  rcases o with _ | v
  · simp
  · rcases h : decodeMessageType v with f | t <;> simp [h]

/-- C10: decoding depends only on the positions required by the message's
tag — any two raw messages that agree (as optional lookups) on those
positions decode to the same result — and additional trailing elements
beyond the required positions are ignored rather than rejected. -/
theorem tryFrom_depends_only_on_required_positions :
    (∀ d1 d2 : List Value,
      (∀ i ∈ relevantPositions d1[0]?, d1[i]? = d2[i]?) →
      Inbound.tryFrom d1 = Inbound.tryFrom d2)
  ∧ (∀ d extra : List Value,
      (∀ i ∈ relevantPositions d[0]?, (d[i]?).isSome = true) →
      Inbound.tryFrom (d ++ extra) = Inbound.tryFrom d) := by
  have main : ∀ d1 d2 : List Value,
      (∀ i ∈ relevantPositions d1[0]?, d1[i]? = d2[i]?) →
      Inbound.tryFrom d1 = Inbound.tryFrom d2 := by
    intro d1 d2 hag
    rcases h0 : d1[0]? with _ | v
    · rw [h0] at hag
      have h0' : d2[0]? = none :=
        (hag 0 (by simp [relevantPositions])).symm.trans h0
      simp [Inbound.tryFrom, index, h0, h0']
    · rw [h0] at hag
      have h0' : d2[0]? = some v :=
        (hag 0 (zero_mem_relevantPositions _)).symm.trans h0
      rcases ht : decodeMessageType v with f | t
      · simp [Inbound.tryFrom, index, h0, h0', ht]
      · simp only [relevantPositions, ht] at hag
        cases t with
        | response =>
          have h1 := hag 1 (by simp [requiredPositions])
          have h2 := hag 2 (by simp [requiredPositions])
          simp [Inbound.tryFrom, index, h0, h0', ht, h1, h2]
        | error =>
          have h1 := hag 1 (by simp [requiredPositions])
          have h2 := hag 2 (by simp [requiredPositions])
          have h3 := hag 3 (by simp [requiredPositions])
          have h4 := hag 4 (by simp [requiredPositions])
          have h5 := hag 5 (by simp [requiredPositions])
          simp [Inbound.tryFrom, index, h0, h0', ht, h1,
            slice25_congr d1 d2 h2 h3 h4 h5]
        | event =>
          have h1 := hag 1 (by simp [requiredPositions])
          have h2 := hag 2 (by simp [requiredPositions])
          simp [Inbound.tryFrom, index, h0, h0', ht, h1, h2]
  refine ⟨main, ?_⟩
  intro d extra hsome
  have h0s := hsome 0 (zero_mem_relevantPositions _)
  obtain ⟨v0, hv0⟩ := Option.isSome_iff_exists.mp h0s
  have h0e : (d ++ extra)[0]? = d[0]? :=
    List.getElem?_append_left ((List.getElem?_eq_some.mp hv0).1)
  apply main
  rw [h0e]
  intro i hi
  obtain ⟨v, hv⟩ := Option.isSome_iff_exists.mp (hsome i hi)
  rw [List.getElem?_append_left ((List.getElem?_eq_some.mp hv).1)]

/-- Witness for C10: a trailing extra element after a complete tag-1
message does not change the decode result. -/
theorem tryFrom_depends_only_on_required_positions_witness :
    Inbound.tryFrom ([Value.int 1, Value.int 5, Value.seq []] ++ [Value.str "x"])
      = Inbound.tryFrom [Value.int 1, Value.int 5, Value.seq []] :=
  tryFrom_depends_only_on_required_positions.2 _ _ (by decide)

theorem dropPre_append (a s : List Char) : dropPre a (a ++ s) = some s := by
  simp [dropPre, List.isPrefixOf_iff_prefix, List.prefix_append, List.drop_left]

theorem dropPre_append_none (a b s : List Char) (k : Nat)
    (hka : k ≤ a.length) (hkb : k ≤ b.length) (hne : a.take k ≠ b.take k) :
    dropPre a (b ++ s) = none := by
  have hnp : ¬ a <+: (b ++ s) := by
    intro hp
    apply hne
    have ha := List.prefix_iff_eq_take.mp hp
    calc a.take k = ((b ++ s).take a.length).take k := by rw [← ha]
      _ = (b ++ s).take (min k a.length) := by rw [List.take_take]
      _ = (b ++ s).take k := by rw [min_eq_left hka]
      _ = b.take k := List.take_append_of_le_length hkb
  simp [dropPre, List.isPrefixOf_iff_prefix, hnp]

theorem append_ne_of_take_ne (b s c : List Char) (k : Nat) (hkb : k ≤ b.length)
    (hne : b.take k ≠ c.take k) : b ++ s ≠ c := by
  intro h
  apply hne
  rw [← h, List.take_append_of_le_length hkb]

theorem matchWrapped_append (pre h : List Char) (hlen : h.length = 40)
    (hhex : h.all isHexDigit = true) :
    matchWrapped pre (pre ++ (h ++ [')', '.'])) = true := by
  have ht : (h ++ [')', '.']).take 40 = h := by rw [← hlen, List.take_left]
  have hd : (h ++ [')', '.']).drop 40 = [')', '.'] := by rw [← hlen, List.drop_left]
  simp [matchWrapped, dropPre_append, ht, hd, hhex, hlen]

theorem matchWrapped_append_none (a b s : List Char) (k : Nat)
    (hka : k ≤ a.length) (hkb : k ≤ b.length) (hne : a.take k ≠ b.take k) :
    matchWrapped a (b ++ s) = false := by
  simp [matchWrapped, dropPre_append_none a b s k hka hkb hne]

theorem matchWrapped_elim (pre cs : List Char) (h : matchWrapped pre cs = true) :
    validHex (String.mk ((cs.drop pre.length).take 40)) = true := by
  unfold matchWrapped at h
  rcases hd : dropPre pre cs with _ | rest
  · rw [hd] at h
    simp at h
  · rw [hd] at h
    unfold dropPre at hd
    by_cases hp : pre.isPrefixOf cs = true
    · rw [if_pos hp] at hd
      injection hd with hrest
      simp only [Bool.and_eq_true, beq_iff_eq] at h
      obtain ⟨⟨hlen, hhex⟩, _⟩ := h
      rw [hrest]
      simp [validHex, List.length_take, hlen, hhex]
    · rw [if_neg hp] at hd
      cases hd

theorem fromHex_isSome (s : String) (h : validHex s = true) :
    (InfoHash.fromHex s).isSome = true := by
  simp [InfoHash.fromHex, h]

theorem fromMsg_session (msg : String)
    (h : matchWrapped alreadyInSessionPat.data msg.data = true) :
    ∃ hh : InfoHash, AddTorrentError.fromMsg msg = .ok (.alreadyInSession hh) ∧
      hh.val = String.mk ((msg.data.drop 28).take 40) := by
  have hv := matchWrapped_elim _ _ h
  have hl : alreadyInSessionPat.data.length = 28 := by decide
  rw [hl] at hv
  refine ⟨⟨_, hv⟩, ?_, rfl⟩
  simp [AddTorrentError.fromMsg, h, InfoHash.fromHex, hv]

theorem fromMsg_added (msg : String)
    (h1 : matchWrapped alreadyInSessionPat.data msg.data = false)
    (h : matchWrapped alreadyBeingAddedPat.data msg.data = true) :
    ∃ hh : InfoHash, AddTorrentError.fromMsg msg = .ok (.alreadyBeingAdded hh) ∧
      hh.val = String.mk ((msg.data.drop 29).take 40) := by
  have hv := matchWrapped_elim _ _ h
  have hl : alreadyBeingAddedPat.data.length = 29 := by decide
  rw [hl] at hv
  refine ⟨⟨_, hv⟩, ?_, rfl⟩
  simp [AddTorrentError.fromMsg, h1, h, InfoHash.fromHex, hv]

theorem fromMsg_ok (msg : String) : ∃ e, AddTorrentError.fromMsg msg = .ok e := by
  cases h1 : matchWrapped alreadyInSessionPat.data msg.data with
  | true =>
    obtain ⟨hh, he, _⟩ := fromMsg_session msg h1
    exact ⟨_, he⟩
  | false =>
    cases h2 : matchWrapped alreadyBeingAddedPat.data msg.data with
    | true =>
      obtain ⟨hh, he, _⟩ := fromMsg_added msg h1 h2
      exact ⟨_, he⟩
    | false =>
      rcases h3 : dropPre unableToAddMagnetPat.data msg.data with _ | rest
      · by_cases h4 : msg = mustSpecifyMsg
        · subst h4
          exact ⟨.mustSpecifyValidTorrent, by simp [AddTorrentError.fromMsg, h1, h2, h3]⟩
        · rcases h5 : dropPre decodingFiledumpPat.data msg.data with _ | rest
          · rcases h6 : dropPre unableToAddToSessionPat.data msg.data with _ | rest
            · exact ⟨.other msg,
                by simp [AddTorrentError.fromMsg, h1, h2, h3, h4, h5, h6]⟩
            · exact ⟨.unableToAddToSession (String.mk rest),
                by simp [AddTorrentError.fromMsg, h1, h2, h3, h4, h5, h6]⟩
          · exact ⟨.decodingFiledumpFailed (String.mk rest),
              by simp [AddTorrentError.fromMsg, h1, h2, h3, h4, h5]⟩
      · exact ⟨.unableToAddMagnet (String.mk rest),
          by simp [AddTorrentError.fromMsg, h1, h2, h3]⟩

/-- C7: for every message text matched by the AlreadyInSession or
AlreadyBeingAdded pattern, the hash parse from the fixed character range
always succeeds; the `unwrap` on the parse result never panics — in fact
the normalizer returns `Ok` on every input, so the parse-failure branch is
unreachable under the pattern-match precondition. -/
theorem matched_hash_parse_never_panics (msg : String) :
    (matchWrapped alreadyInSessionPat.data msg.data = true →
      (InfoHash.fromHex (String.mk ((msg.data.drop 28).take 40))).isSome = true)
  ∧ (matchWrapped alreadyBeingAddedPat.data msg.data = true →
      (InfoHash.fromHex (String.mk ((msg.data.drop 29).take 40))).isSome = true)
  ∧ ∃ e, AddTorrentError.fromMsg msg = .ok e := by
  refine ⟨?_, ?_, fromMsg_ok msg⟩
  · intro h
    have hv := matchWrapped_elim _ _ h
    have hl : alreadyInSessionPat.data.length = 28 := by decide
    rw [hl] at hv
    exact fromHex_isSome _ hv
  · intro h
    have hv := matchWrapped_elim _ _ h
    have hl : alreadyBeingAddedPat.data.length = 29 := by decide
    rw [hl] at hv
    exact fromHex_isSome _ hv

/-- Witness for C7: a concrete matched AlreadyInSession message whose hash
parse succeeds. -/
theorem matched_hash_parse_never_panics_witness :
    matchWrapped alreadyInSessionPat.data
        "Torrent already in session (0123456789abcdef0123456789abcdef01234567).".data = true
  ∧ (InfoHash.fromHex (String.mk
      (("Torrent already in session (0123456789abcdef0123456789abcdef01234567).".data.drop
        28).take 40))).isSome = true :=
  ⟨by decide, (matched_hash_parse_never_panics _).1 (by decide)⟩

/-- C5: normalization dispatches on (exception name, argument-list shape):
exactly the records with exception "AddTorrentError" and exactly one
text-typed positional argument produce an AddTorrent variant, and every
other record produces `SpecializedError::Generic` wrapping the original
record with all four fields intact and unmodified. -/
theorem specialize_dispatch (err : GenericError) :
    ((∃ msg, err.exception = "AddTorrentError" ∧ err.args = [Value.str msg]) →
      ∃ a, SpecializedError.fromGeneric err = .ok (.addTorrent a))
  ∧ (¬ (∃ msg, err.exception = "AddTorrentError" ∧ err.args = [Value.str msg]) →
      SpecializedError.fromGeneric err = .ok (.generic err)) := by
  constructor
  · rintro ⟨msg, hE, hA⟩
    obtain ⟨e, he⟩ := fromMsg_ok msg
    refine ⟨e, ?_⟩
    simp [SpecializedError.fromGeneric, hE, hA, he]
  · intro hn
    unfold SpecializedError.fromGeneric
    split
    · next msg hE hA => exact absurd ⟨msg, hE, hA⟩ hn
    · rfl

/-- Witness for C5: the recognized (name, shape) pair specializes, a
different exception name passes through unchanged. -/
theorem specialize_dispatch_witness :
    (∃ a, SpecializedError.fromGeneric ⟨"AddTorrentError", [Value.str "zzz"], [], "tb"⟩
        = .ok (.addTorrent a))
  ∧ SpecializedError.fromGeneric ⟨"OtherError", [], [], "tb"⟩
      = .ok (.generic ⟨"OtherError", [], [], "tb"⟩) :=
  ⟨(specialize_dispatch _).1 ⟨"zzz", rfl, rfl⟩,
   (specialize_dispatch _).2 (by rintro ⟨msg, h, _⟩; exact absurd h (by decide))⟩

/-- C6: the Add-Torrent normalizer checks the fixed pattern list
first-match-wins in the documented order (AlreadyInSession,
AlreadyBeingAdded, UnableToAddMagnet, MustSpecifyValidTorrent,
DecodingFiledumpFailed, UnableToAddToSession); each matched template yields
its variant carrying the documented payload (for the hash patterns, exactly
the 40-character substring at the fixed offset; for prefix patterns, the
remainder after the prefix), and text matching no pattern yields Other
carrying the original full message rather than failing. -/
theorem addTorrent_normalizer_first_match (msg : String) :
    (matchWrapped alreadyInSessionPat.data msg.data = true →
      ∃ hh : InfoHash, AddTorrentError.fromMsg msg = .ok (.alreadyInSession hh) ∧
        hh.val = String.mk ((msg.data.drop 28).take 40))
  ∧ (matchWrapped alreadyInSessionPat.data msg.data = false →
     matchWrapped alreadyBeingAddedPat.data msg.data = true →
      ∃ hh : InfoHash, AddTorrentError.fromMsg msg = .ok (.alreadyBeingAdded hh) ∧
        hh.val = String.mk ((msg.data.drop 29).take 40))
  ∧ (matchWrapped alreadyInSessionPat.data msg.data = false →
     matchWrapped alreadyBeingAddedPat.data msg.data = false →
     ∀ rest, dropPre unableToAddMagnetPat.data msg.data = some rest →
      AddTorrentError.fromMsg msg = .ok (.unableToAddMagnet (String.mk rest)))
  ∧ (matchWrapped alreadyInSessionPat.data msg.data = false →
     matchWrapped alreadyBeingAddedPat.data msg.data = false →
     dropPre unableToAddMagnetPat.data msg.data = none →
     msg = mustSpecifyMsg →
      AddTorrentError.fromMsg msg = .ok .mustSpecifyValidTorrent)
  ∧ (matchWrapped alreadyInSessionPat.data msg.data = false →
     matchWrapped alreadyBeingAddedPat.data msg.data = false →
     dropPre unableToAddMagnetPat.data msg.data = none →
     msg ≠ mustSpecifyMsg →
     ∀ rest, dropPre decodingFiledumpPat.data msg.data = some rest →
      AddTorrentError.fromMsg msg = .ok (.decodingFiledumpFailed (String.mk rest)))
  ∧ (matchWrapped alreadyInSessionPat.data msg.data = false →
     matchWrapped alreadyBeingAddedPat.data msg.data = false →
     dropPre unableToAddMagnetPat.data msg.data = none →
     msg ≠ mustSpecifyMsg →
     dropPre decodingFiledumpPat.data msg.data = none →
     ∀ rest, dropPre unableToAddToSessionPat.data msg.data = some rest →
      AddTorrentError.fromMsg msg = .ok (.unableToAddToSession (String.mk rest)))
  ∧ (matchWrapped alreadyInSessionPat.data msg.data = false →
     matchWrapped alreadyBeingAddedPat.data msg.data = false →
     dropPre unableToAddMagnetPat.data msg.data = none →
     msg ≠ mustSpecifyMsg →
     dropPre decodingFiledumpPat.data msg.data = none →
     dropPre unableToAddToSessionPat.data msg.data = none →
      AddTorrentError.fromMsg msg = .ok (.other msg)) := by
  refine ⟨fromMsg_session msg, fromMsg_added msg, ?_, ?_, ?_, ?_, ?_⟩
  · intro h1 h2 rest h3
    simp [AddTorrentError.fromMsg, h1, h2, h3]
  · intro h1 h2 h3 h4
    subst h4
    simp [AddTorrentError.fromMsg, h1, h2, h3]
  · intro h1 h2 h3 h4 rest h5
    simp [AddTorrentError.fromMsg, h1, h2, h3, h4, h5]
  · intro h1 h2 h3 h4 h5 rest h6
    simp [AddTorrentError.fromMsg, h1, h2, h3, h4, h5, h6]
  · intro h1 h2 h3 h4 h5 h6
    simp [AddTorrentError.fromMsg, h1, h2, h3, h4, h5, h6]

/-- Witness for C6: a concrete magnet-pattern message keeps the remainder
after the prefix, a concrete unmatched message falls through to Other. -/
theorem addTorrent_normalizer_first_match_witness :
    AddTorrentError.fromMsg "Unable to add magnet, invalid magnet info: bad-uri"
        = .ok (.unableToAddMagnet "bad-uri")
  ∧ AddTorrentError.fromMsg "some unrecognized text"
        = .ok (.other "some unrecognized text") :=
  ⟨(addTorrent_normalizer_first_match
      "Unable to add magnet, invalid magnet info: bad-uri").2.2.1
      (by decide) (by decide) "bad-uri".data (by decide),
   (addTorrent_normalizer_first_match "some unrecognized text").2.2.2.2.2.2
      (by decide) (by decide) (by decide) (by decide) (by decide) (by decide)⟩

/-- The documented literal message templates (spec §4.2 step 2), filled
with a variant's payload; `Other` has no template. -/
def reconstruct : AddTorrentError → Option String
  | .alreadyInSession hh => some (alreadyInSessionPat ++ hh.val ++ ").")
  | .alreadyBeingAdded hh => some (alreadyBeingAddedPat ++ hh.val ++ ").")
  | .unableToAddMagnet link => some (unableToAddMagnetPat ++ link)
  | .mustSpecifyValidTorrent => some mustSpecifyMsg
  | .decodingFiledumpFailed decode_ex => some (decodingFiledumpPat ++ decode_ex)
  | .unableToAddToSession ex => some (unableToAddToSessionPat ++ ex)
  | .other _ => none

theorem validHex_parts (s : String) (h : validHex s = true) :
    s.data.length = 40 ∧ s.data.all isHexDigit = true := by
  have h2 := h
  unfold validHex at h2
  rw [Bool.and_eq_true, beq_iff_eq] at h2
  exact h2

/-- C8: for every Add-Torrent variant other than Other, reconstructing the
documented literal message text from the variant's payload and re-running
the normalizer yields the same variant with the same payload. -/
theorem addTorrent_roundtrip (e : AddTorrentError) (t : String)
    (h : reconstruct e = some t) : AddTorrentError.fromMsg t = .ok e := by
  cases e with
  | alreadyInSession hh =>
    obtain ⟨s, hvs⟩ := hh
    simp only [reconstruct, Option.some.injEq] at h
    subst h
    obtain ⟨hlen40, hhex⟩ := validHex_parts s hvs
    have h1 : matchWrapped alreadyInSessionPat.data
        (alreadyInSessionPat.data ++ (s.data ++ [')', '.'])) = true :=
      matchWrapped_append _ _ hlen40 hhex
    have hext : ((alreadyInSessionPat.data ++ (s.data ++ [')', '.'])).drop 28).take 40
        = s.data := by
      have h28 : alreadyInSessionPat.data.length = 28 := by decide
      rw [← h28, List.drop_left, ← hlen40, List.take_left]
    have hmk : String.mk s.data = s := rfl
    simp [AddTorrentError.fromMsg, h1, hext, hmk, InfoHash.fromHex, hvs]
  | alreadyBeingAdded hh =>
    obtain ⟨s, hvs⟩ := hh
    simp only [reconstruct, Option.some.injEq] at h
    subst h
    obtain ⟨hlen40, hhex⟩ := validHex_parts s hvs
    have h1 : matchWrapped alreadyInSessionPat.data
        (alreadyBeingAddedPat.data ++ (s.data ++ [')', '.'])) = false :=
      matchWrapped_append_none _ _ _ 28 (by decide) (by decide) (by decide)
    have h2 : matchWrapped alreadyBeingAddedPat.data
        (alreadyBeingAddedPat.data ++ (s.data ++ [')', '.'])) = true :=
      matchWrapped_append _ _ hlen40 hhex
    have hext : ((alreadyBeingAddedPat.data ++ (s.data ++ [')', '.'])).drop 29).take 40
        = s.data := by
      have h29 : alreadyBeingAddedPat.data.length = 29 := by decide
      rw [← h29, List.drop_left, ← hlen40, List.take_left]
    have hmk : String.mk s.data = s := rfl
    simp [AddTorrentError.fromMsg, h1, h2, hext, hmk, InfoHash.fromHex, hvs]
  | unableToAddMagnet s =>
    simp only [reconstruct, Option.some.injEq] at h
    subst h
    have h1 : matchWrapped alreadyInSessionPat.data
        (unableToAddMagnetPat.data ++ s.data) = false :=
      matchWrapped_append_none _ _ _ 1 (by decide) (by decide) (by decide)
    have h2 : matchWrapped alreadyBeingAddedPat.data
        (unableToAddMagnetPat.data ++ s.data) = false :=
      matchWrapped_append_none _ _ _ 1 (by decide) (by decide) (by decide)
    have h3 : dropPre unableToAddMagnetPat.data
        (unableToAddMagnetPat.data ++ s.data) = some s.data :=
      dropPre_append _ _
    have hmk : String.mk s.data = s := rfl
    simp [AddTorrentError.fromMsg, h1, h2, h3, hmk]
  | mustSpecifyValidTorrent =>
    simp only [reconstruct, Option.some.injEq] at h
    subst h
    rfl
  | decodingFiledumpFailed s =>
    simp only [reconstruct, Option.some.injEq] at h
    subst h
    have h1 : matchWrapped alreadyInSessionPat.data
        (decodingFiledumpPat.data ++ s.data) = false :=
      matchWrapped_append_none _ _ _ 1 (by decide) (by decide) (by decide)
    have h2 : matchWrapped alreadyBeingAddedPat.data
        (decodingFiledumpPat.data ++ s.data) = false :=
      matchWrapped_append_none _ _ _ 1 (by decide) (by decide) (by decide)
    have h3 : dropPre unableToAddMagnetPat.data
        (decodingFiledumpPat.data ++ s.data) = none :=
      dropPre_append_none _ _ _ 15 (by decide) (by decide) (by decide)
    have h4 : (decodingFiledumpPat ++ s : String) ≠ mustSpecifyMsg := by
      intro he
      have hda : (decodingFiledumpPat ++ s : String).data = mustSpecifyMsg.data :=
        congrArg String.data he
      rw [String.data_append] at hda
      exact append_ne_of_take_ne _ _ _ 1 (by decide) (by decide) hda
    have h5 : dropPre decodingFiledumpPat.data
        (decodingFiledumpPat.data ++ s.data) = some s.data :=
      dropPre_append _ _
    have hmk : String.mk s.data = s := rfl
    simp [AddTorrentError.fromMsg, h1, h2, h3, h4, h5, hmk]
  | unableToAddToSession s =>
    simp only [reconstruct, Option.some.injEq] at h
    subst h
    have h1 : matchWrapped alreadyInSessionPat.data
        (unableToAddToSessionPat.data ++ s.data) = false :=
      matchWrapped_append_none _ _ _ 1 (by decide) (by decide) (by decide)
    have h2 : matchWrapped alreadyBeingAddedPat.data
        (unableToAddToSessionPat.data ++ s.data) = false :=
      matchWrapped_append_none _ _ _ 1 (by decide) (by decide) (by decide)
    have h3 : dropPre unableToAddMagnetPat.data
        (unableToAddToSessionPat.data ++ s.data) = none :=
      dropPre_append_none _ _ _ 15 (by decide) (by decide) (by decide)
    have h4 : (unableToAddToSessionPat ++ s : String) ≠ mustSpecifyMsg := by
      intro he
      have hda : (unableToAddToSessionPat ++ s : String).data = mustSpecifyMsg.data :=
        congrArg String.data he
      rw [String.data_append] at hda
      exact append_ne_of_take_ne _ _ _ 1 (by decide) (by decide) hda
    have h5 : dropPre decodingFiledumpPat.data
        (unableToAddToSessionPat.data ++ s.data) = none :=
      dropPre_append_none _ _ _ 22 (by decide) (by decide) (by decide)
    have h6 : dropPre unableToAddToSessionPat.data
        (unableToAddToSessionPat.data ++ s.data) = some s.data :=
      dropPre_append _ _
    have hmk : String.mk s.data = s := rfl
    simp [AddTorrentError.fromMsg, h1, h2, h3, h4, h5, h6, hmk]
  | other s =>
    simp [reconstruct] at h

/-- Witness for C8: round trip of a concrete UnableToAddToSession variant. -/
theorem addTorrent_roundtrip_witness :
    AddTorrentError.fromMsg "Unable to add torrent to session: boom"
      = .ok (.unableToAddToSession "boom") :=
  addTorrent_roundtrip (.unableToAddToSession "boom") _ rfl

/-- C9: calling `set_event_interest` with zero active event receivers trips
the assertion and aborts (a panic — a programmer error, never returned as a
recoverable error value); with at least one active receiver the assertion
passes and the request is forwarded to the underlying wire call, whose
result is returned. -/
theorem set_event_interest_asserts_receiver (receiverCount : Nat)
    (events : List EventKind) (wire : List EventKind → Except GenericError Bool) :
    (receiverCount = 0 → set_event_interest receiverCount events wire = .panicked)
  ∧ (0 < receiverCount →
      set_event_interest receiverCount events wire =
        match wire events with
        | .ok b => .ok b
        | .error e => .err e) := by
  constructor
  · intro h
    subst h
    simp [set_event_interest]
  · intro h
    simp [set_event_interest, h]

/-- Witness for C9: zero receivers abort; one receiver forwards the wire
call's result. -/
theorem set_event_interest_asserts_receiver_witness :
    set_event_interest 0 [] (fun _ => .ok true) = .panicked
  ∧ set_event_interest 1 [] (fun _ => .ok true) = .ok true :=
  ⟨(set_event_interest_asserts_receiver 0 [] (fun _ => .ok true)).1 rfl,
   (set_event_interest_asserts_receiver 1 [] (fun _ => .ok true)).2 (by norm_num)⟩

end DelugeRpc
